import Mathlib

/-!
Verification of the minimal wasmtime host shim (`src/main.rs`).

The development shallowly embeds the shim: value types and values of the
engine's calling convention, the pointer/length codec, the memory holder,
the external allocator (modelled from the spec, see the doc comment on
`FreeingBumpHeapAllocator`), the host stub `DummyCallable` with its
`handle_call` behavior and the `call` fault boundary, and the driver
(`perform_call`, `inject_input_data`, `main`).  External collaborators
(file system, wasm engine compile/instantiate, guest execution) are
parameters of an `Env` record.
-/

namespace WasmShim

/-- The wasm value types of the engine API (`ValType`).  `other` stands for
any non-numeric type (reference types, v128), for which `default_val` hits
the `todo!()` arm. -/
inductive ValType
  | i32
  | i64
  | f32
  | f64
  | other
deriving DecidableEq

/-- Runtime values (`wasmtime::Val`).  Each constructor carries the raw bit
pattern as a natural number (`I32`/`F32` below `2 ^ 32`, `I64`/`F64` below
`2 ^ 64` in any run of the real program). -/
inductive Val
  | I32 (bits : Nat)
  | I64 (bits : Nat)
  | F32 (bits : Nat)
  | F64 (bits : Nat)
deriving DecidableEq

/-- A function signature (`wasmtime::FuncType`): ordered parameter and
result types. -/
structure FuncType where
  params : List ValType
  results : List ValType
deriving DecidableEq

/-- Outcomes of host-side code running under the dispatch boundary: a wasm
trap carrying a message (`Trap::new(msg)`), or a Rust panic (any `unwrap`,
out-of-bounds index or `todo!()`). -/
inductive HErr
  | trap (msg : String)
  | panic
deriving DecidableEq

/-- `default_val` from the source: the zero value of a numeric value type;
the `todo!()` arm for any other type is a panic. -/
def default_val : ValType → Except HErr Val
  | .i32 => .ok (.I32 0)
  | .i64 => .ok (.I64 0)
  | .f32 => .ok (.F32 0)
  | .f64 => .ok (.F64 0)
  | .other => .error .panic

/-- `unpack_ptr_and_len` from the source:
`ptr = (val & (!0u32 as u64)) as u32`, `len = (val >> 32) as u32`. -/
def unpack_ptr_and_len (val : Nat) : Nat × Nat :=
  (val &&& 0xFFFFFFFF, (val >>> 32) % 2 ^ 32)

/-- Modelled from the spec: `pack(pointer, length)` is the guest-side half
of the calling convention, absent from this repository's source — the
pointer goes in the low 32 bits and the length in the high 32 bits of a
64-bit word. -/
def pack (pointer len : Nat) : Nat :=
  pointer % 2 ^ 32 + 2 ^ 32 * (len % 2 ^ 32)

/-- One byte of a UTF-8 continuation: `0x80 ..= 0xBF`. -/
def isUtf8Cont (b : Nat) : Bool :=
  0x80 ≤ b && b ≤ 0xBF

/-- Recursion core of the UTF-8 check, structurally recursive on a fuel
argument (the fuel only needs to cover the list's length; every step
consumes at least one byte). -/
def validUtf8Go : Nat → List Nat → Bool
  | _, [] => true
  | 0, _ :: _ => false
  | fuel + 1, b :: rest =>
    if b ≤ 0x7F then validUtf8Go fuel rest
    else if 0xC2 ≤ b && b ≤ 0xDF then
      match rest with
      | c :: rest2 => isUtf8Cont c && validUtf8Go fuel rest2
      | [] => false
    else if b = 0xE0 then
      match rest with
      | c :: d :: rest3 =>
        (0xA0 ≤ c && c ≤ 0xBF) && isUtf8Cont d && validUtf8Go fuel rest3
      | _ => false
    else if 0xE1 ≤ b && b ≤ 0xEC then
      match rest with
      | c :: d :: rest3 => isUtf8Cont c && isUtf8Cont d && validUtf8Go fuel rest3
      | _ => false
    else if b = 0xED then
      match rest with
      | c :: d :: rest3 =>
        (0x80 ≤ c && c ≤ 0x9F) && isUtf8Cont d && validUtf8Go fuel rest3
      | _ => false
    else if 0xEE ≤ b && b ≤ 0xEF then
      match rest with
      | c :: d :: rest3 => isUtf8Cont c && isUtf8Cont d && validUtf8Go fuel rest3
      | _ => false
    else if b = 0xF0 then
      match rest with
      | c :: d :: e :: rest4 =>
        (0x90 ≤ c && c ≤ 0xBF) && isUtf8Cont d && isUtf8Cont e &&
          validUtf8Go fuel rest4
      | _ => false
    else if 0xF1 ≤ b && b ≤ 0xF3 then
      match rest with
      | c :: d :: e :: rest4 =>
        isUtf8Cont c && isUtf8Cont d && isUtf8Cont e && validUtf8Go fuel rest4
      | _ => false
    else if b = 0xF4 then
      match rest with
      | c :: d :: e :: rest4 =>
        (0x80 ≤ c && c ≤ 0x8F) && isUtf8Cont d && isUtf8Cont e &&
          validUtf8Go fuel rest4
      | _ => false
    else false

/-- Well-formedness of a byte sequence as UTF-8, exactly the check
performed by Rust's `String::from_utf8` (RFC 3629: no overlong forms, no
surrogates, no code points above U+10FFFF). -/
def validUtf8 (l : List Nat) : Bool := validUtf8Go l.length l

/-- `read_string` from the source: slices `memory[ptr..ptr+len]` (a Rust
panic when out of bounds) and decodes it with `String::from_utf8(..).unwrap()`
(a panic when not well-formed).  The observable content of the resulting
Rust `String` is its UTF-8 byte sequence, so the model returns the bytes. -/
def read_string (memory : List Nat) (ptr len : Nat) : Except HErr (List Nat) :=
  if ptr + len ≤ memory.length then
    let bytes := (memory.drop ptr).take len
    if validUtf8 bytes then .ok bytes else .error .panic
  else .error .panic

/-- Modelled from the spec: `sp_allocator::FreeingBumpHeapAllocator`, the
external allocator crate, is not part of this repository's source.  The
spec describes it as "an external bump-with-freelist allocator accessed
only through `allocate(memory, size) -> pointer` and
`deallocate(memory, pointer)`", constructed over a heap base offset: fresh
blocks are bumped off a cursor that starts at the heap base, freed blocks
go to a free list for reuse, every returned address stays within the
memory passed to the call. -/
structure FreeingBumpHeapAllocator where
  heapBase : Nat
  bumper : Nat
  freeList : List Nat
  allocatedList : List Nat
deriving DecidableEq

/-- `FreeingBumpHeapAllocator::new(heap_base)`: bumping starts at the heap
base, no block has been handed out or freed yet. -/
def FreeingBumpHeapAllocator.new (heap_base : Nat) : FreeingBumpHeapAllocator :=
  { heapBase := heap_base, bumper := heap_base, freeList := [], allocatedList := [] }

/-- Modelled from the spec: `allocate(memory, size) -> pointer` reuses a
free-listed block when one is available, otherwise bumps the cursor;
either way the request fails with an allocation-failure condition when the
block does not fit in the current memory. -/
def FreeingBumpHeapAllocator.allocate (a : FreeingBumpHeapAllocator)
    (memLen size : Nat) : Except String (Nat × FreeingBumpHeapAllocator) :=
  match a.freeList with
  | p :: rest =>
    if p + size ≤ memLen then
      .ok (p, { a with freeList := rest, allocatedList := p :: a.allocatedList })
    else .error "allocator out of space"
  | [] =>
    if a.bumper + size ≤ memLen then
      .ok (a.bumper, { a with bumper := a.bumper + size,
                              allocatedList := a.bumper :: a.allocatedList })
    else .error "allocator out of space"

/-- Modelled from the spec: `deallocate(memory, pointer)` returns a block
to the free list; a pointer that was not handed out by `allocate` (or was
already freed) signals a deallocation-failure condition. -/
def FreeingBumpHeapAllocator.deallocate (a : FreeingBumpHeapAllocator)
    (ptr : Nat) : Except String FreeingBumpHeapAllocator :=
  if ptr ∈ a.allocatedList then
    .ok { a with allocatedList := a.allocatedList.erase ptr,
                 freeList := ptr :: a.freeList }
  else .error "invalid pointer to deallocate"

/-- The shared mutable state every host stub can reach: the
`MemoryHolder` cell (`Rc<RefCell<Option<Memory>>>`, `none` until
`memory.set` runs), the allocator (`Rc<RefCell<FreeingBumpHeapAllocator>>`),
and the lines printed to standard output so far (each line as its UTF-8
bytes). -/
structure CallCtx where
  mem : Option (List Nat)
  alloc : FreeingBumpHeapAllocator
  out : List (List Nat)
deriving DecidableEq

/-- `MemoryHolder::with`: `unwrap` of the inner `Option` — a panic when the
memory was never bound. -/
def withMemory (ctx : CallCtx) : Except HErr (List Nat) :=
  match ctx.mem with
  | some m => .ok m
  | none => .error .panic

/-- Rust slice indexing `vals[i]` — a panic when out of bounds. -/
def getVal (vals : List Val) (i : Nat) : Except HErr Val :=
  match vals[i]? with
  | some v => .ok v
  | none => .error .panic

/-- `Val::unwrap_i32` followed by `as u32` (the cast is the identity on the
32 stored bits) — a panic on any other value constructor. -/
def unwrap_i32 : Val → Except HErr Nat
  | .I32 bits => .ok bits
  | _ => .error .panic

/-- `Val::unwrap_i64` followed by `as u64` (identity on the stored bits) —
a panic on any other value constructor. -/
def unwrap_i64 : Val → Except HErr Nat
  | .I64 bits => .ok bits
  | _ => .error .panic

/-- Rust slice assignment `vals[i] = v` — a panic when out of bounds. -/
def setVal (vals : List Val) (i : Nat) (v : Val) : Except HErr (List Val) :=
  if i < vals.length then .ok (vals.set i v) else .error .panic

/-- The default-result loop at the top of `handle_call`:
`results.iter_mut().enumerate().for_each(|(idx, result)|
  *result = default_val(&self.func_ty.params()[idx]))`.
Note the source indexes the *parameter* types by the result position:
`paramTys[idx]` is a panic when `idx` is past the end of the parameter
list, and `default_val` panics on a non-numeric type. -/
def fillDefaults (paramTys : List ValType) (idx : Nat) :
    List Val → Except HErr (List Val)
  | [] => .ok []
  | _ :: rest =>
    match paramTys[idx]? with
    | none => .error .panic
    | some t => do
      let v ← default_val t
      let tail ← fillDefaults paramTys (idx + 1) rest
      .ok (v :: tail)

/-- A host stub (`DummyCallable`): the import's name and signature.  The
`allocator` and `memory` fields of the Rust struct are `Rc`-shared state,
passed here through `CallCtx`. -/
structure DummyCallable where
  name : String
  func_ty : FuncType
deriving DecidableEq

/-- `DummyCallable::handle_call`: fill every result slot with
`default_val(&func_ty.params()[idx])`, then dispatch on the import name —
`ext_allocator_malloc_version_1` calls `allocate` (failure becomes
`Trap::new("can't allocate")`), `ext_allocator_free_version_1` calls
`deallocate` (failure becomes `Trap::new("can't deallocate")`),
`ext_logging_log_version_1` unpacks two buffer locators from params 1 and
2, reads both strings and prints `"{target}: {msg}"`; any other name does
nothing further. -/
def DummyCallable.handle_call (c : DummyCallable) (params results : List Val)
    (ctx : CallCtx) : Except HErr (List Val × CallCtx) := do
  let results ← fillDefaults c.func_ty.params 0 results
  if c.name = "ext_allocator_malloc_version_1" then do
    let p0 ← getVal params 0
    let size ← unwrap_i32 p0
    let mem ← withMemory ctx
    match ctx.alloc.allocate mem.length size with
    | .error _ => .error (.trap "can't allocate")
    | .ok (ptr, alloc1) => do
      let results ← setVal results 0 (.I32 (ptr % 2 ^ 32))
      .ok (results, { ctx with alloc := alloc1 })
  else if c.name = "ext_allocator_free_version_1" then do
    let p0 ← getVal params 0
    let ptr ← unwrap_i32 p0
    let _mem ← withMemory ctx
    match ctx.alloc.deallocate ptr with
    | .error _ => .error (.trap "can't deallocate")
    | .ok alloc1 => .ok (results, { ctx with alloc := alloc1 })
  else if c.name = "ext_logging_log_version_1" then do
    let p1 ← getVal params 1
    let v1 ← unwrap_i64 p1
    let p2 ← getVal params 2
    let v2 ← unwrap_i64 p2
    let mem ← withMemory ctx
    let target ← read_string mem (unpack_ptr_and_len v1).1 (unpack_ptr_and_len v1).2
    let msg ← read_string mem (unpack_ptr_and_len v2).1 (unpack_ptr_and_len v2).2
    .ok (results, { ctx with out := ctx.out ++ [target ++ [58, 32] ++ msg] })
  else
    .ok (results, ctx)

/-- `<DummyCallable as Callable>::call`: the dispatch and fault boundary —
`handle_call` runs inside `std::panic::catch_unwind`, a caught panic is
mapped to `Trap::new("trap")` by `.map_err(..)`, and `.and_then(|i| i)`
passes an inner `Ok`/`Err(Trap)` through unchanged. -/
def DummyCallable.call (c : DummyCallable) (params results : List Val)
    (ctx : CallCtx) : Except HErr (List Val × CallCtx) :=
  match c.handle_call params results ctx with
  | .error .panic => .error (.trap "trap")
  | .error (.trap msg) => .error (.trap msg)
  | .ok r => .ok r

/-- The kind/type of a declared import (`wasmtime::ExternType`). -/
inductive ExternType
  | func (ft : FuncType)
  | memory
  | table
  | global
deriving DecidableEq

/-- One declared import of the guest module: its name and extern type. -/
structure ImportDecl where
  name : String
  ty : ExternType
deriving DecidableEq

/-- The loaded guest module, as far as the driver inspects it: its declared
imports in order. -/
structure Module where
  imports : List ImportDecl
deriving DecidableEq

/-- An export of the instantiated guest.  A function export carries the
guest's behavior when called (`Func::call`): result values, or a `Trap`
with a message.  A memory export carries the current bytes of the linear
memory. -/
inductive ExportItem
  | func (run : List Val → Except String (List Val))
  | mem (bytes : List Nat)
  | table
  | global

/-- The instantiated guest (`wasmtime::Instance`): a lookup from export
names to export items (`Instance::get_export`). -/
structure Instance where
  exports : String → Option ExportItem

/-- The external collaborators of one `perform_call` run: the file system
read of `sc_runtime_test.wasm`, the engine's `Module::new`
compile/validate step, and the engine's `Instance::new` instantiation
step.  Each may fail with an engine/IO error message. -/
structure Env where
  fileRead : Except String (List Nat)
  newModule : List Nat → Except String Module
  instantiate : Module → List DummyCallable → Except String Instance

/-- The sources of the `anyhow::Error` values `perform_call` can return to
its caller (driver-fatal conditions), including a guest `Trap` surfaced by
`Func::call` via `?`. -/
inductive DriverErr
  | ioError (msg : String)
  | moduleError (msg : String)
  | nonFuncImport
  | instantiateError (msg : String)
  | memoryNotExported
  | memoryWrongKind
  | allocError (msg : String)
  | exportNotFound (name : String)
  | exportNotFunc (name : String)
  | guestTrap (msg : String)
deriving DecidableEq

/-- The outcome of driver-level code, which runs outside any
`catch_unwind`: either a Rust panic (which aborts the process) or a
returned value. -/
inductive Proc (α : Type)
  | panicked
  | ret (a : α)
deriving DecidableEq

/-- The import loop of `perform_call` (its `for import in module.imports()`):
build one `DummyCallable` per function import, preserving order; return
`Err(anyhow!("can't provide non function import"))` as soon as an import
is not of function kind, building no stub for it. -/
def buildExterns : List ImportDecl → Except DriverErr (List DummyCallable)
  | [] => .ok []
  | i :: rest =>
    match i.ty with
    | .func ft => do
      let tail ← buildExterns rest
      .ok (({ name := i.name, func_ty := ft } : DummyCallable) :: tail)
    | _ => .error .nonFuncImport

/-- Byte-wise overwrite of `mem[ptr..ptr+data.len()]` with `data`
(`dst.copy_from_slice(data)` after the slice bound check succeeded). -/
def writeAt (mem : List Nat) (ptr : Nat) (data : List Nat) : List Nat :=
  mem.take ptr ++ data ++ mem.drop (ptr + data.length)

/-- `inject_input_data` from the source: under `memory.with` (a panic when
the holder is unset), `allocate` the payload's length (the allocator error
propagates to the caller through `?` as an `anyhow` error), slice
`memory[ptr..ptr+data.len()]` (a Rust panic — outside any `catch_unwind` —
when out of bounds), copy the payload in, and return
`(Val::I32(ptr as u32 as i32), Val::I32(data.len() as u32 as i32))`
together with the updated allocator and memory. -/
def inject_input_data (allocator : FreeingBumpHeapAllocator)
    (memOpt : Option (List Nat)) (data : List Nat) :
    Proc (Except DriverErr ((Val × Val) × FreeingBumpHeapAllocator × List Nat)) :=
  match memOpt with
  | none => .panicked
  | some mem =>
    match allocator.allocate mem.length data.length with
    | .error e => .ret (.error (.allocError e))
    | .ok (ptr, alloc1) =>
      if ptr + data.length ≤ mem.length then
        .ret (.ok ((.I32 (ptr % 2 ^ 32), .I32 (data.length % 2 ^ 32)),
                   alloc1, writeAt mem ptr data))
      else .panicked

/-- The hard-coded heap base of `perform_call`: `let heap_base = 1055861;`. -/
def heap_base : Nat := 1055861

/-- `perform_call` from the source, the invocation driver: read the guest
file, compile it, build the allocator over `heap_base` and one stub per
function import, instantiate, bind the `memory` export (driver-fatal when
absent or of the wrong kind), inject the input payload, resolve the named
entry point (driver-fatal when absent or not a function) and call it with
`&[ptr, len]`; a `Trap` from the call propagates through `?` as a
driver-fatal error. -/
def perform_call (env : Env) (method_name : String) (input_data : List Nat) :
    Proc (Except DriverErr Unit) :=
  match env.fileRead with
  | .error e => .ret (.error (.ioError e))
  | .ok code =>
  match env.newModule code with
  | .error e => .ret (.error (.moduleError e))
  | .ok module1 =>
  let allocator := FreeingBumpHeapAllocator.new heap_base
  match buildExterns module1.imports with
  | .error e => .ret (.error e)
  | .ok externs =>
  match env.instantiate module1 externs with
  | .error e => .ret (.error (.instantiateError e))
  | .ok inst =>
  match inst.exports "memory" with
  | none => .ret (.error .memoryNotExported)
  | some (.func _) => .ret (.error .memoryWrongKind)
  | some .table => .ret (.error .memoryWrongKind)
  | some .global => .ret (.error .memoryWrongKind)
  | some (.mem bytes) =>
  match inject_input_data allocator (some bytes) input_data with
  | .panicked => .panicked
  | .ret (.error e) => .ret (.error e)
  | .ret (.ok ((ptr, len), _alloc1, _mem1)) =>
  match inst.exports method_name with
  | none => .ret (.error (.exportNotFound method_name))
  | some (.mem _) => .ret (.error (.exportNotFunc method_name))
  | some .table => .ret (.error (.exportNotFunc method_name))
  | some .global => .ret (.error (.exportNotFunc method_name))
  | some (.func run) =>
  match run [ptr, len] with
  | .error msg => .ret (.error (.guestTrap msg))
  | .ok _retValues => .ret (.ok ())

/-- Little-endian 4-byte encoding of a 32-bit integer. -/
def le32 (x : Nat) : List Nat :=
  [x % 256, x / 256 % 256, x / 2 ^ 16 % 256, x / 2 ^ 24 % 256]

/-- Modelled from the spec: the external length-prefixed binary codec
(`parity_scale_codec::Encode` on `Vec<i32>`), not part of this
repository's source — a compact length prefix (for the short lists used
here, fewer than 64 elements, a single byte holding `4 * length`)
followed by each element in 4-byte little-endian order. -/
def scaleEncodeVecI32 (xs : List Nat) : List Nat :=
  (4 * xs.length) % 256 :: xs.flatMap le32

/-- `main` from the source: `perform_call("test_conditional_panic",
&vec![2].encode())?` then `perform_call("test_panic", &[])?`.  Each run
queries the external world afresh, so the two runs take separate `Env`
values; the `?` on the first call short-circuits `main`. -/
def main (env1 env2 : Env) : Proc (Except DriverErr Unit) :=
  match perform_call env1 "test_conditional_panic" (scaleEncodeVecI32 [2]) with
  | .panicked => .panicked
  | .ret (.error e) => .ret (.error e)
  | .ret (.ok _) => perform_call env2 "test_panic" []

/-- C1: every host-stub invocation runs inside the dispatch-and-fault
boundary — any panic raised inside `handle_call` (allocation bookkeeping
failure, decode failure, out-of-bounds access, `todo!()`, unwraps) is
caught by `call` and becomes the trap outcome `Trap::new("trap")`, and the
boundary's result is in every case either a normal result or a trap: a
failure never unwinds past `call` into the embedding process. -/
theorem call_contains_faults (c : DummyCallable) (params results : List Val)
    (ctx : CallCtx) :
    (c.handle_call params results ctx = .error .panic →
      c.call params results ctx = .error (.trap "trap")) ∧
    ((∃ v, c.call params results ctx = .ok v) ∨
      (∃ msg, c.call params results ctx = .error (.trap msg))) := by
  constructor
  · intro h
    simp [DummyCallable.call, h]
  · cases h : c.handle_call params results ctx with
    | ok v => exact .inl ⟨v, by simp [DummyCallable.call, h]⟩
    | error e =>
      cases e with
      | trap m => exact .inr ⟨m, by simp [DummyCallable.call, h]⟩
      | panic => exact .inr ⟨"trap", by simp [DummyCallable.call, h]⟩

/-- Witness for C1: the malloc stub called before any memory is bound
panics inside `handle_call` (the `MemoryHolder` unwrap), and the boundary
turns exactly that panic into the trap outcome. -/
theorem call_contains_faults_witness :
    DummyCallable.call ⟨"ext_allocator_malloc_version_1", ⟨[.i32], [.i32]⟩⟩
      [.I32 4] [.I32 0] ⟨none, FreeingBumpHeapAllocator.new heap_base, []⟩ =
      .error (.trap "trap") :=
  (call_contains_faults _ _ _ _).1 rfl

/-- C2 (code bug): the default-fill loop indexes the *parameter* types by
the result position.  A stub whose signature is `(f64) -> i32` leaves the
floating-point zero `F64 0` in its single integer result slot instead of
the integer zero `I32 0` the slot's declared type calls for. -/
theorem default_fill_uses_param_types :
    DummyCallable.call ⟨"some_import", ⟨[.f64], [.i32]⟩⟩ [] [.I32 7]
      ⟨none, FreeingBumpHeapAllocator.new heap_base, []⟩ =
      .ok ([.F64 0], ⟨none, FreeingBumpHeapAllocator.new heap_base, []⟩) :=
  rfl

/-- C3 (code bug): a stub for an unrecognized import whose signature is
`() -> i32` raises: the default-fill loop panics indexing the empty
parameter-type list at position 0, and the boundary surfaces the call as
a trap — contradicting "never raises any fault or trap". -/
theorem unknown_import_with_result_traps :
    DummyCallable.call ⟨"some_other_import", ⟨[], [.i32]⟩⟩ [] [.I32 0]
      ⟨none, FreeingBumpHeapAllocator.new heap_base, []⟩ =
      .error (.trap "trap") :=
  rfl

/-- C4: the pointer/length codec round-trips — for all 32-bit `p` and `l`,
`unpack_ptr_and_len (pack p l) = (p, l)`. -/
theorem unpack_pack_roundtrip (p l : Nat) (hp : p < 2 ^ 32) (hl : l < 2 ^ 32) :
    unpack_ptr_and_len (pack p l) = (p, l) := by
  unfold unpack_ptr_and_len pack
  have hland : ∀ v : Nat, v &&& 0xFFFFFFFF = v % 2 ^ 32 := by
    intro v
    have := Nat.and_pow_two_sub_one_eq_mod v 32
    norm_num at this ⊢
    exact this
  have hshift : ∀ v : Nat, v >>> 32 = v / 2 ^ 32 := fun v =>
    Nat.shiftRight_eq_div_pow v 32
  rw [hland, hshift, Nat.mod_eq_of_lt hp, Nat.mod_eq_of_lt hl,
    Nat.add_mul_mod_self_left, Nat.mod_eq_of_lt hp,
    Nat.add_mul_div_left p l (by positivity), Nat.div_eq_of_lt hp,
    Nat.zero_add, Nat.mod_eq_of_lt hl]

/-- Witness for C4: the round trip at `p = 5`, `l = 7`. -/
theorem unpack_pack_roundtrip_witness :
    unpack_ptr_and_len (pack 5 7) = (5, 7) :=
  unpack_pack_roundtrip 5 7 (by norm_num) (by norm_num)

/-- C5 (amended): when the external allocator cannot satisfy a request,
the failure in the host-call path (the `ext_allocator_malloc_version_1`
stub) is translated into the guest trap `Trap::new("can't allocate")`; the
failure in the driver's input-payload injection instead propagates through
`?` as a driver-fatal allocation error to the driver's caller. -/
theorem alloc_failure_paths (size : Nat) (mem : List Nat) (ctx : CallCtx)
    (r : Val) (e : String) (allocator : FreeingBumpHeapAllocator)
    (data : List Nat) :
    (ctx.mem = some mem → ctx.alloc.allocate mem.length size = .error e →
      DummyCallable.call ⟨"ext_allocator_malloc_version_1", ⟨[.i32], [.i32]⟩⟩
        [.I32 size] [r] ctx = .error (.trap "can't allocate")) ∧
    (allocator.allocate mem.length data.length = .error e →
      inject_input_data allocator (some mem) data =
        .ret (.error (.allocError e))) := by
  constructor
  · intro h1 h2
    simp [DummyCallable.call, DummyCallable.handle_call, fillDefaults,
      default_val, getVal, unwrap_i32, withMemory, h1, h2, Bind.bind,
      Except.bind]
  · intro h
    simp [inject_input_data, h]

/-- Witness for C5's amended statement: with the bound memory empty, the
malloc stub's allocation request fails and the call outcome is the
allocation trap. -/
theorem alloc_failure_paths_witness :
    DummyCallable.call ⟨"ext_allocator_malloc_version_1", ⟨[.i32], [.i32]⟩⟩
      [.I32 4] [.I32 0] ⟨some [], FreeingBumpHeapAllocator.new heap_base, []⟩ =
      .error (.trap "can't allocate") :=
  (alloc_failure_paths 4 [] ⟨some [], FreeingBumpHeapAllocator.new heap_base, []⟩
    (.I32 0) "allocator out of space" (FreeingBumpHeapAllocator.new heap_base)
    []).1 rfl rfl

/-- A concrete environment whose guest declares no imports and exports an
empty `memory`, so the very first allocation (the driver's input-payload
injection) fails. -/
def envAllocFail : Env :=
  { fileRead := .ok []
    newModule := fun _ => .ok ⟨[]⟩
    instantiate := fun _ _ =>
      .ok ⟨fun n => if n = "memory" then some (.mem []) else none⟩ }

/-- C5 counterexample: in the driver's input-payload injection path, an
allocation failure is *not* translated into a guest trap — `perform_call`
returns it as a driver-fatal allocation error to its caller. -/
theorem alloc_failure_driver_fatal :
    perform_call envAllocFail "test_conditional_panic" [2] =
      .ret (.error (.allocError "allocator out of space")) :=
  rfl

/-- Helper: the import loop fails with the non-function-import error as
soon as any declared import is not of function kind. -/
theorem buildExterns_nonfunc (imports : List ImportDecl)
    (h : ∃ i ∈ imports, ∀ ft, i.ty ≠ ExternType.func ft) :
    buildExterns imports = .error .nonFuncImport := by
  induction imports with
  | nil => rcases h with ⟨i, hi, -⟩; simp at hi
  | cons a rest ih =>
    rcases h with ⟨i, hi, hty⟩
    cases hta : a.ty with
    | func ft =>
      have hmem : i ∈ rest := by
        rcases List.mem_cons.mp hi with rfl | hmem
        · exact absurd hta (hty ft)
        · exact hmem
      have hrest := ih ⟨i, hmem, hty⟩
      simp [buildExterns, hta, hrest, Bind.bind, Except.bind]
    | memory => simp [buildExterns, hta]
    | table => simp [buildExterns, hta]
    | global => simp [buildExterns, hta]

/-- C8: when the guest declares any import that is not of function kind,
the driver fails with the driver-fatal non-function-import error before
instantiation (the conclusion holds whatever `env.instantiate` would
answer), reported to `perform_call`'s caller; the import loop builds no
stub list at all. -/
theorem nonfunc_import_fails (env : Env) (method : String)
    (data code : List Nat) (m : Module)
    (h1 : env.fileRead = .ok code) (h2 : env.newModule code = .ok m)
    (h3 : ∃ i ∈ m.imports, ∀ ft, i.ty ≠ ExternType.func ft) :
    perform_call env method data = .ret (.error .nonFuncImport) := by
  have hb := buildExterns_nonfunc m.imports h3
  simp [perform_call, h1, h2, hb]

/-- A concrete environment whose guest declares one memory import. -/
def envNonFunc : Env :=
  { fileRead := .ok []
    newModule := fun _ => .ok ⟨[⟨"imported_memory", .memory⟩]⟩
    instantiate := fun _ _ => .ok ⟨fun _ => none⟩ }

/-- Witness for C8: a guest with one memory import makes the driver fail
with the non-function-import error. -/
theorem nonfunc_import_fails_witness :
    perform_call envNonFunc "test_panic" [] = .ret (.error .nonFuncImport) :=
  nonfunc_import_fails envNonFunc "test_panic" [] []
    ⟨[⟨"imported_memory", .memory⟩]⟩ rfl rfl
    ⟨⟨"imported_memory", .memory⟩, by simp, fun ft h => ExternType.noConfusion h⟩

/-- Allocator states reachable in a driver run: the freshly constructed
allocator over the hard-coded heap base, closed under successful allocate
and deallocate calls. -/
inductive AllocReachable : FreeingBumpHeapAllocator → Prop
  | init : AllocReachable (FreeingBumpHeapAllocator.new heap_base)
  | alloc {a : FreeingBumpHeapAllocator} {memLen size p : Nat}
      {a1 : FreeingBumpHeapAllocator} : AllocReachable a →
      a.allocate memLen size = .ok (p, a1) → AllocReachable a1
  | free {a : FreeingBumpHeapAllocator} {p : Nat}
      {a1 : FreeingBumpHeapAllocator} : AllocReachable a →
      a.deallocate p = .ok a1 → AllocReachable a1

/-- The allocator invariant: the bump cursor and every tracked block offset
sit at or above the heap base. -/
def AllocInv (a : FreeingBumpHeapAllocator) : Prop :=
  heap_base ≤ a.bumper ∧ (∀ q ∈ a.freeList, heap_base ≤ q) ∧
    ∀ q ∈ a.allocatedList, heap_base ≤ q

/-- Every reachable allocator state satisfies the invariant. -/
theorem allocInv_of_reachable {a : FreeingBumpHeapAllocator}
    (h : AllocReachable a) : AllocInv a := by
  induction h with
  | init =>
    refine ⟨le_refl _, ?_, ?_⟩ <;> simp [FreeingBumpHeapAllocator.new]
  | alloc hr hok ih =>
    rcases ih with ⟨hb, hf, ha⟩
    unfold FreeingBumpHeapAllocator.allocate at hok
    split at hok
    next q rest hfl =>
      split at hok
      next hle =>
        simp only [Except.ok.injEq, Prod.mk.injEq] at hok
        rcases hok with ⟨-, rfl⟩
        have hq : heap_base ≤ q := hf q (by rw [hfl]; exact List.mem_cons_self q rest)
        refine ⟨hb, ?_, ?_⟩
        · intro x hx
          exact hf x (by rw [hfl]; exact List.mem_cons_of_mem q hx)
        · intro x hx
          rcases List.mem_cons.mp hx with rfl | hx
          · exact hq
          · exact ha x hx
      next => exact absurd hok (by simp)
    next hfl =>
      split at hok
      next hle =>
        simp only [Except.ok.injEq, Prod.mk.injEq] at hok
        rcases hok with ⟨-, rfl⟩
        refine ⟨by simpa using Nat.le_add_right_of_le hb, hf, ?_⟩
        intro x hx
        rcases List.mem_cons.mp hx with rfl | hx
        · exact hb
        · exact ha x hx
      next => exact absurd hok (by simp)
  | free hr hok ih =>
    rcases ih with ⟨hb, hf, ha⟩
    unfold FreeingBumpHeapAllocator.deallocate at hok
    split at hok
    next hmem =>
      simp only [Except.ok.injEq] at hok
      subst hok
      refine ⟨hb, ?_, ?_⟩
      · intro x hx
        rcases List.mem_cons.mp hx with rfl | hx
        · exact ha x hmem
        · exact hf x hx
      · intro x hx
        exact ha x (List.mem_of_mem_erase hx)
    next => exact absurd hok (by simp)

/-- A successful allocation hands out a pointer at or above the heap base
whenever the state satisfies the invariant. -/
theorem allocate_ge_of_inv {a : FreeingBumpHeapAllocator}
    {memLen size p : Nat} {a1 : FreeingBumpHeapAllocator}
    (hinv : AllocInv a) (hok : a.allocate memLen size = .ok (p, a1)) :
    heap_base ≤ p := by
  rcases hinv with ⟨hb, hf, -⟩
  unfold FreeingBumpHeapAllocator.allocate at hok
  split at hok
  next q rest hfl =>
    split at hok
    next =>
      simp only [Except.ok.injEq, Prod.mk.injEq] at hok
      obtain ⟨hqp, -⟩ := hok
      exact hqp ▸ hf q (by rw [hfl]; exact List.mem_cons_self q rest)
    next => exact absurd hok (by simp)
  next =>
    split at hok
    next =>
      simp only [Except.ok.injEq, Prod.mk.injEq] at hok
      rcases hok with ⟨rfl, -⟩
      exact hb
    next => exact absurd hok (by simp)

/-- C9: the driver constructs its allocator over the hard-coded heap base
offset 1055861 (a literal, independent of the guest module), and every
pointer a reachable allocator state hands out lies at or above that
constant. -/
theorem allocator_pointers_above_heap_base :
    heap_base = 1055861 ∧
    ∀ (a : FreeingBumpHeapAllocator), AllocReachable a →
      ∀ (memLen size p : Nat) (a1 : FreeingBumpHeapAllocator),
        a.allocate memLen size = .ok (p, a1) → 1055861 ≤ p := by
  refine ⟨rfl, ?_⟩
  intro a hr memLen size p a1 hok
  exact allocate_ge_of_inv (allocInv_of_reachable hr) hok

/-- Witness for C9: the first allocation of the freshly built allocator
(8 bytes out of a 1055870-byte memory) returns the pointer 1055861
itself. -/
theorem allocator_pointers_above_heap_base_witness :
    heap_base = 1055861 ∧ (1055861 : Nat) ≤ 1055861 :=
  ⟨allocator_pointers_above_heap_base.1,
    allocator_pointers_above_heap_base.2
      (FreeingBumpHeapAllocator.new heap_base) .init 1055870 8 1055861
      ⟨1055861, 1055869, [], [1055861]⟩ rfl⟩

/-- C10: `main` is exactly the sequence of the two driver invocations —
`test_conditional_panic` with the encoded payload of the list `[2]`
(which the length-prefixed codec renders as `[4, 2, 0, 0, 0]`), then
`test_panic` with the empty payload — and an error outcome of the first
invocation is returned by `main` as is, whatever the second run's
environment holds (so the second invocation is never performed). -/
theorem main_sequence (env1 env2 : Env) :
    scaleEncodeVecI32 [2] = [4, 2, 0, 0, 0] ∧
    (∀ e, perform_call env1 "test_conditional_panic" (scaleEncodeVecI32 [2]) =
        .ret (.error e) → main env1 env2 = .ret (.error e)) ∧
    (∀ u, perform_call env1 "test_conditional_panic" (scaleEncodeVecI32 [2]) =
        .ret (.ok u) → main env1 env2 = perform_call env2 "test_panic" []) := by
  refine ⟨rfl, ?_, ?_⟩
  · intro e h
    simp [main, h]
  · intro u h
    simp [main, h]

/-- A concrete environment whose empty exported memory makes the first
driver invocation fail during input-payload injection. -/
def envMainW : Env :=
  { fileRead := .ok []
    newModule := fun _ => .ok ⟨[]⟩
    instantiate := fun _ _ =>
      .ok ⟨fun n => if n = "memory" then some (.mem []) else none⟩ }

/-- Witness for C10: when the first invocation fails, `main` returns that
error (here for a second environment equal to the first). -/
theorem main_sequence_witness :
    main envMainW envMainW =
      .ret (.error (.allocError "allocator out of space")) :=
  (main_sequence envMainW envMainW).2.1
    (.allocError "allocator out of space") rfl

/-- A successful allocation fits in the memory passed to the call. -/
theorem allocate_ok_bound {a : FreeingBumpHeapAllocator}
    {memLen size p : Nat} {a1 : FreeingBumpHeapAllocator}
    (hok : a.allocate memLen size = .ok (p, a1)) : p + size ≤ memLen := by
  unfold FreeingBumpHeapAllocator.allocate at hok
  split at hok
  next q rest hfl =>
    split at hok
    next hle =>
      simp only [Except.ok.injEq, Prod.mk.injEq] at hok
      obtain ⟨hqp, -⟩ := hok
      exact hqp ▸ hle
    next => exact absurd hok (by simp)
  next =>
    split at hok
    next hle =>
      simp only [Except.ok.injEq, Prod.mk.injEq] at hok
      obtain ⟨hqp, -⟩ := hok
      exact hqp ▸ hle
    next => exact absurd hok (by simp)

/-- C6: once the driver has read, compiled and instantiated the guest,
bound its exported memory and injected the input payload (allocating it
at `ptr` and copying it there), it resolves the named entry point —
failing driver-fatally when the export is absent or not a function — and
invokes the entry function with exactly the payload's pointer and length
as its two `I32` arguments, surfacing a guest trap from the call as a
driver error. -/
theorem entry_point_invocation (env : Env) (code data : List Nat) (m : Module)
    (ex : List DummyCallable) (inst : Instance) (bytes : List Nat)
    (method : String) (ptr : Nat) (a1 : FreeingBumpHeapAllocator)
    (h1 : env.fileRead = .ok code) (h2 : env.newModule code = .ok m)
    (h3 : buildExterns m.imports = .ok ex)
    (h4 : env.instantiate m ex = .ok inst)
    (h5 : inst.exports "memory" = some (.mem bytes))
    (h6 : (FreeingBumpHeapAllocator.new heap_base).allocate bytes.length
        data.length = .ok (ptr, a1)) :
    (inject_input_data (FreeingBumpHeapAllocator.new heap_base) (some bytes)
        data =
      .ret (.ok ((.I32 (ptr % 2 ^ 32), .I32 (data.length % 2 ^ 32)), a1,
        writeAt bytes ptr data))) ∧
    (inst.exports method = none →
      perform_call env method data = .ret (.error (.exportNotFound method))) ∧
    (∀ run, inst.exports method = some (.func run) →
      perform_call env method data =
        match run [.I32 (ptr % 2 ^ 32), .I32 (data.length % 2 ^ 32)] with
        | .error msg => .ret (.error (.guestTrap msg))
        | .ok _ => .ret (.ok ())) ∧
    (∀ item, inst.exports method = some item → (∀ run, item ≠ .func run) →
      perform_call env method data =
        .ret (.error (.exportNotFunc method))) := by
  have hbound := allocate_ok_bound h6
  have hinj : inject_input_data (FreeingBumpHeapAllocator.new heap_base)
      (some bytes) data =
      .ret (.ok ((.I32 (ptr % 2 ^ 32), .I32 (data.length % 2 ^ 32)), a1,
        writeAt bytes ptr data)) := by
    simp [inject_input_data, h6, hbound]
  refine ⟨hinj, ?_, ?_, ?_⟩
  · intro h7
    simp [perform_call, h1, h2, h3, h4, h5, hinj, h7]
  · intro run h7
    simp [perform_call, h1, h2, h3, h4, h5, hinj, h7]
  · intro item h7 hne
    cases item with
    | func run => exact absurd rfl (hne run)
    | mem b => simp [perform_call, h1, h2, h3, h4, h5, hinj, h7]
    | table => simp [perform_call, h1, h2, h3, h4, h5, hinj, h7]
    | global => simp [perform_call, h1, h2, h3, h4, h5, hinj, h7]

/-- A concrete linear memory large enough for the hard-coded heap base. -/
def memBytes : List Nat := List.replicate 1055870 0

/-- A concrete instance exporting only `memory`, bound to `memBytes`. -/
def instEntry : Instance :=
  ⟨fun n => if n = "memory" then some (.mem memBytes) else none⟩

/-- A concrete environment around `instEntry`, with an import-free guest. -/
def envEntry : Env :=
  { fileRead := .ok []
    newModule := fun _ => .ok ⟨[]⟩
    instantiate := fun _ _ => .ok instEntry }

/-- Witness for C6: with the payload injected, asking for an entry point
the guest does not export is the driver-fatal not-found error. -/
theorem entry_point_invocation_witness :
    perform_call envEntry "missing_entry" [7] =
      .ret (.error (.exportNotFound "missing_entry")) := by
  have hlen : memBytes.length = 1055870 := by
    rw [memBytes, List.length_replicate]
  have h6 : (FreeingBumpHeapAllocator.new heap_base).allocate memBytes.length
      1 = .ok (1055861, ⟨1055861, 1055862, [], [1055861]⟩) := by
    rw [hlen]; rfl
  exact (entry_point_invocation envEntry [] [7] ⟨[]⟩ [] instEntry memBytes
    "missing_entry" 1055861 ⟨1055861, 1055862, [], [1055861]⟩
    rfl rfl rfl rfl rfl h6).2.1 rfl

/-- C7: a call to the logging service with both buffer locators in bounds
either traps — when either decoded byte buffer (target or message) is not
well-formed UTF-8, the decode panic is caught at the boundary and surfaces
as the trap outcome, with nothing emitted — or, when both are well-formed,
emits the line `<target>: <message>` to standard output and succeeds. -/
theorem logging_utf8 (mem : List Nat) (p0 : Val) (a b : Nat) (ps : List Val)
    (alloc : FreeingBumpHeapAllocator) (outs : List (List Nat))
    (hbt : (unpack_ptr_and_len a).1 + (unpack_ptr_and_len a).2 ≤ mem.length)
    (hbm : (unpack_ptr_and_len b).1 + (unpack_ptr_and_len b).2 ≤ mem.length) :
    (¬(validUtf8 ((mem.drop (unpack_ptr_and_len a).1).take
          (unpack_ptr_and_len a).2) = true ∧
        validUtf8 ((mem.drop (unpack_ptr_and_len b).1).take
          (unpack_ptr_and_len b).2) = true) →
      DummyCallable.call ⟨"ext_logging_log_version_1", ⟨[.i32, .i64, .i64], []⟩⟩
        (p0 :: .I64 a :: .I64 b :: ps) [] ⟨some mem, alloc, outs⟩ =
        .error (.trap "trap")) ∧
    (validUtf8 ((mem.drop (unpack_ptr_and_len a).1).take
        (unpack_ptr_and_len a).2) = true →
      validUtf8 ((mem.drop (unpack_ptr_and_len b).1).take
        (unpack_ptr_and_len b).2) = true →
      DummyCallable.call ⟨"ext_logging_log_version_1", ⟨[.i32, .i64, .i64], []⟩⟩
        (p0 :: .I64 a :: .I64 b :: ps) [] ⟨some mem, alloc, outs⟩ =
        .ok ([], ⟨some mem, alloc,
          outs ++ [((mem.drop (unpack_ptr_and_len a).1).take
              (unpack_ptr_and_len a).2) ++ [58, 32] ++
            ((mem.drop (unpack_ptr_and_len b).1).take
              (unpack_ptr_and_len b).2)]⟩)) := by
  constructor
  · intro hnv
    by_cases hT : validUtf8 ((mem.drop (unpack_ptr_and_len a).1).take
        (unpack_ptr_and_len a).2) = true
    · have hM : ¬validUtf8 ((mem.drop (unpack_ptr_and_len b).1).take
          (unpack_ptr_and_len b).2) = true := fun hM => hnv ⟨hT, hM⟩
      simp [DummyCallable.call, DummyCallable.handle_call, fillDefaults,
        getVal, unwrap_i64, withMemory, read_string, hbt, hbm, hT, hM,
        Bind.bind, Except.bind]
    · simp [DummyCallable.call, DummyCallable.handle_call, fillDefaults,
        getVal, unwrap_i64, withMemory, read_string, hbt, hbm, hT,
        Bind.bind, Except.bind]
  · intro hT hM
    simp [DummyCallable.call, DummyCallable.handle_call, fillDefaults,
      getVal, unwrap_i64, withMemory, read_string, hbt, hbm, hT, hM,
      Bind.bind, Except.bind]

/-- Witness for C7: memory `[104, 105]`, target locator `pack (0, 1)` and
message locator `pack (1, 1)`; both one-byte buffers are valid UTF-8, and
the call prints the bytes of `"h: i"` and succeeds. -/
theorem logging_utf8_witness :
    DummyCallable.call ⟨"ext_logging_log_version_1", ⟨[.i32, .i64, .i64], []⟩⟩
      [.I32 0, .I64 4294967296, .I64 4294967297] []
      ⟨some [104, 105], FreeingBumpHeapAllocator.new heap_base, []⟩ =
      .ok ([], ⟨some [104, 105], FreeingBumpHeapAllocator.new heap_base,
        [[104, 58, 32, 105]]⟩) :=
  (logging_utf8 [104, 105] (.I32 0) 4294967296 4294967297 []
    (FreeingBumpHeapAllocator.new heap_base) [] (by decide) (by decide)).2
    (by decide) (by decide)
